import Mathlib

/-!
Verification development for the story-bible core of the `chapter-master-ai`
repository.  The JavaScript sources under `src/` (direct functions
`next-chapter.js` — which also holds `parse-premise` and `check-consistency` —
`create-character.js`, `get-story-status.js`, `generate-chapter` and the zod
schema module) are shallowly embedded below:

* JS objects become Lean structures; a JS field that may be `undefined`
  becomes an `Option`.
* JS numbers occurring here are ids, chapter numbers and counts; they are
  embedded as `Nat` (the zod schemas require positive integers and the
  factories only ever produce naturals).  Percentage arithmetic
  (`get-story-status.js`) is embedded over `ℚ` with `Math.round` as
  `⌊q + 1/2⌋`; IEEE-754 double rounding is abstracted to exact rational
  arithmetic.
* File I/O is modelled as a document store holding the (optional) story
  bible; each direct function maps the store to a result and a new store.
  The markdown mirror files and report files are presentation artifacts and
  are not modelled, nor are the human-readable `message` strings of
  *successful* results (the spec marks output formatting presentation-only);
  the fixed failure messages are embedded literally.
* `new Date().toISOString()` is modelled by a `now : String` parameter.
* The external generation service is modelled by an oracle argument: either
  the call throws (propagating to the enclosing `catch`) or it returns a
  value which, after the local `JSON.parse` try/catch, is either `none`
  (unparseable or falsy) or a parsed payload.
-/

/-! ## JavaScript-semantics helpers -/

/-- `storyBible.xs || []`: a possibly-absent JS array read with a `[]`
default. -/
def jsArr {α : Type} (o : Option (List α)) : List α := o.getD []

/-- `xs?.includes(a)` for a possibly-absent JS array of numbers: `undefined`
is falsy, hence `false`. -/
def jsIncludes (o : Option (List Nat)) (a : Nat) : Bool := (jsArr o).contains a

/-- JS truthiness of a possibly-absent number: `undefined` and `0` are
falsy. -/
def jsTruthyNat (o : Option Nat) : Bool := !((o.getD 0) == 0)

/-- JS truthiness of a possibly-absent string: `undefined` and `""` are
falsy. -/
def jsTruthyStr (o : Option String) : Bool := !((o.getD "") == "")

/-- `a || b` for a possibly-absent JS string `a`: yields `b` when `a` is
`undefined` or `""`. -/
def jsOrStr (o : Option String) (d : String) : String :=
  match o with
  | none => d
  | some s => if s == "" then d else s

/-- Decides whether the first character list is a prefix of the second
(value-wise). -/
def listPrefixOf : List Char → List Char → Bool
  | [], _ => true
  | _ :: _, [] => false
  | a :: as, b :: bs => a == b && listPrefixOf as bs

/-- Decides whether `needle` occurs as a contiguous sublist of the second
argument. -/
def listSubstr (needle : List Char) : List Char → Bool
  | [] => needle.isEmpty
  | c :: rest => listPrefixOf needle (c :: rest) || listSubstr needle rest

/-- JS `hay.includes(needle)` on strings: substring containment. -/
def strIncludes (hay needle : String) : Bool := listSubstr needle.toList hay.toList

/-- JS `s.toLowerCase()` (ASCII case folding suffices for the embedded
code paths). -/
def toLowerStr (s : String) : String := String.map Char.toLower s

/-- `Math.max(...xs)` on a list of naturals guarded by a nonemptiness check
in all call sites (the `0` default is never observed there). -/
def listMaxNat (l : List Nat) : Nat := l.foldl Nat.max 0

/-- JS `Math.round` on a nonnegative rational: round half up. -/
def jsRound (q : ℚ) : ℤ := ⌊q + 1/2⌋

/-! ## Data model (from the zod schema module and the factories)

Structures carry exactly the fields that the embedded functions read or
write; optional schema fields untouched by any embedded function (e.g.
`biography`, `voice`, `tags`, `dependencies`) are omitted. -/

/-- `psychology` block written by the character factory enrichment step. -/
structure Psychology where
  motivations : List String
  fears : List String
  goals : List String
deriving Repr, DecidableEq

/-- `arc` object as produced by the character factory (`{ summary }`) and as
read by the consistency checker (`character.arc.summary`). -/
structure Arc where
  summary : Option String
deriving Repr, DecidableEq

structure Character where
  id : Nat
  type : String
  title : String
  description : String
  characterType : String
  status : String
  priority : String
  psychology : Option Psychology
  traits : Option (List String)
  arc : Option Arc
  createdAt : String
  updatedAt : String
deriving Repr, DecidableEq

structure Scene where
  id : Nat
  type : String
  title : String
  description : String
  sceneType : String
  chapterId : Nat
  characters : Option (List Nat)
  setting : String
  purpose : String
  status : String
  priority : String
  createdAt : String
  updatedAt : String
deriving Repr, DecidableEq

/-- Chapter element.  `characterMoments` holds the description strings the
chapter generator produces from the AI payload. -/
structure Chapter where
  id : Nat
  type : String
  title : String
  chapterNumber : Option Nat
  description : String
  purpose : String
  status : String
  priority : String
  characters : Option (List Nat)
  plotThreads : Option (List Nat)
  conflicts : Option (List String)
  scenes : Option (List Nat)
  plotAdvancement : Option String
  characterMoments : Option (List String)
  pov : Option Nat
  wordCountTarget : Option Nat
  createdAt : String
  updatedAt : String
deriving Repr, DecidableEq

structure PlotThread where
  id : Nat
  type : String
  title : String
  status : String
  resolution : Option String
deriving Repr, DecidableEq

structure Premise where
  id : Nat
  type : String
  title : String
  description : String
  status : String
  priority : String
  content : String
  genre : String
  targetAudience : Option String
  themes : Option (List String)
  wordCountTarget : Option Nat
  createdAt : String
  updatedAt : String
deriving Repr, DecidableEq

structure StyleGuide where
  voice : Option String
  tense : Option String
  pov : Option String
  tone : Option String
deriving Repr, DecidableEq

structure Meta where
  title : String
  genre : String
  targetWordCount : Option Nat
  createdAt : String
  updatedAt : String
  version : Option String
deriving Repr, DecidableEq

/-- The aggregate story-bible document (`story-bible.json`). -/
structure StoryBible where
  meta : Meta
  premise : Option Premise
  characters : Option (List Character)
  chapters : Option (List Chapter)
  scenes : Option (List Scene)
  plotThreads : Option (List PlotThread)
  style : Option StyleGuide
deriving Repr, DecidableEq

/-! ## Issues (consistency checker output) -/

structure Issue where
  type : String
  description : String
  severity : String
  characterId : Option Nat
  chapterId : Option Nat
  plotThreadId : Option Nat
  fixedAt : Option String
  fixMode : Option String
deriving Repr, DecidableEq

structure Suggestion where
  type : String
  content : String
deriving Repr, DecidableEq

/-! ## Consistency checker (`check-consistency` in next-chapter.js) -/

/-- The `character-unlisted` issue record pushed by
`checkCharacterConsistency`. -/
def unlistedIssue (character : Character) (parentChapter : Chapter) : Issue :=
  { type := "character-unlisted"
    description := "Character \"" ++ character.title ++
      "\" appears in scenes but not listed in chapter \"" ++ parentChapter.title ++ "\""
    severity := "moderate"
    characterId := some character.id
    chapterId := some parentChapter.id
    plotThreadId := none, fixedAt := none, fixMode := none }

/-- The `character-arc-undefined` issue record. -/
def arcUndefinedIssue (character : Character) : Issue :=
  { type := "character-arc-undefined"
    description := "Character \"" ++ character.title ++
      "\" appears in multiple chapters but lacks defined character arc"
    severity := "minor"
    characterId := some character.id
    chapterId := none, plotThreadId := none, fixedAt := none, fixMode := none }

/-- Loop body of `checkCharacterConsistency` for one character: scenes where
the character appears but the parent chapter does not list it, then the
arc-continuity check (which requires the `arc` object to be present). -/
def characterIssues (chapters : List Chapter) (scenes : List Scene)
    (character : Character) : List Issue :=
  let characterScenes := scenes.filter (fun s => jsIncludes s.characters character.id)
  let characterChapters := chapters.filter (fun c => jsIncludes c.characters character.id)
  let unlisted := characterScenes.filterMap (fun scene =>
    match chapters.find? (fun c => c.id == scene.chapterId) with
    | some parentChapter =>
        if !(jsIncludes parentChapter.characters character.id) then
          some (unlistedIssue character parentChapter)
        else none
    | none => none)
  let arcIssues :=
    match character.arc with
    | some arc =>
        if characterChapters.length > 1 then
          if !(jsTruthyStr arc.summary) || arc.summary == some "To be developed" then
            [arcUndefinedIssue character]
          else []
        else []
    | none => []
  unlisted ++ arcIssues

def checkCharacterConsistency (characters : List Character)
    (chapters : List Chapter) (scenes : List Scene) : List Issue :=
  characters.flatMap (characterIssues chapters scenes)

def unusedThreadIssue (plotThread : PlotThread) : Issue :=
  { type := "plot-thread-unused"
    description := "Plot thread \"" ++ plotThread.title ++
      "\" is not referenced in any chapters"
    severity := "minor"
    characterId := none, chapterId := none
    plotThreadId := some plotThread.id, fixedAt := none, fixMode := none }

def unresolvedThreadIssue (plotThread : PlotThread) : Issue :=
  { type := "plot-thread-unresolved"
    description := "Plot thread \"" ++ plotThread.title ++
      "\" marked complete but no resolution specified"
    severity := "moderate"
    characterId := none, chapterId := none
    plotThreadId := some plotThread.id, fixedAt := none, fixMode := none }

/-- Loop body of `checkPlotConsistency` for one plot thread. -/
def plotThreadIssues (chapters : List Chapter) (plotThread : PlotThread) : List Issue :=
  let relevantChapters := chapters.filter (fun c =>
    jsIncludes c.plotThreads plotThread.id ||
      (match c.plotAdvancement with
       | some pa => strIncludes (toLowerStr pa) (toLowerStr plotThread.title)
       | none => false))
  (if relevantChapters.length == 0 && plotThread.status != "completed" then
     [unusedThreadIssue plotThread]
   else []) ++
  (if plotThread.status == "completed" && !(jsTruthyStr plotThread.resolution) then
     [unresolvedThreadIssue plotThread]
   else [])

def checkPlotConsistency (plotThreads : List PlotThread)
    (chapters : List Chapter) : List Issue :=
  plotThreads.flatMap (plotThreadIssues chapters)

def gapIssue (lo hi : Nat) : Issue :=
  { type := "chapter-sequence-gap"
    description := "Gap in chapter sequence: Chapter " ++ toString lo ++
      " followed by Chapter " ++ toString hi
    severity := "minor"
    characterId := none, chapterId := none, plotThreadId := none
    fixedAt := none, fixMode := none }

def dupIssue (num : Nat) : Issue :=
  { type := "duplicate-chapter-number"
    description := "Duplicate chapter number: " ++ toString num
    severity := "critical"
    characterId := none, chapterId := none, plotThreadId := none
    fixedAt := none, fixMode := none }

/-- The sorted (ascending) list of truthy chapter numbers:
`chapters.map(c => c.chapterNumber).filter(n => n).sort((a, b) => a - b)`. -/
def sortedChapterNumbers (chapters : List Chapter) : List Nat :=
  List.insertionSort (· ≤ ·) (((chapters.map (·.chapterNumber)).filterMap id).filter (fun n => n ≠ 0))

/-- Adjacent pairs of a list (`l[i-1], l[i]`). -/
def adjPairs (l : List Nat) : List (Nat × Nat) := l.zip l.tail

/-- The adjacent pairs differing by more than 1 (the gap loop's hits). -/
def gapPairs (l : List Nat) : List (Nat × Nat) :=
  (adjPairs l).filter (fun p => 1 < p.2 - p.1)

/-- `chapterNumbers.filter((num, index) => chapterNumbers.indexOf(num) !== index)`:
an element is kept exactly when an equal element occurs earlier; `seen` is the
already-traversed prefix. -/
def jsDupScan (seen : List Nat) : List Nat → List Nat
  | [] => []
  | x :: xs =>
      if seen.contains x then x :: jsDupScan (seen ++ [x]) xs
      else jsDupScan (seen ++ [x]) xs

def checkTimelineConsistency (chapters : List Chapter) : List Issue :=
  let chapterNumbers := sortedChapterNumbers chapters
  ((gapPairs chapterNumbers).map (fun p => gapIssue p.1 p.2)) ++
    ((jsDupScan [] chapterNumbers).map dupIssue)

def povIssue (count : Nat) : Issue :=
  { type := "pov-undefined"
    description := toString count ++ " chapters don't specify POV character"
    severity := "minor"
    characterId := none, chapterId := none, plotThreadId := none
    fixedAt := none, fixMode := none }

def checkStyleConsistency (chapters : List Chapter)
    (styleGuide : Option StyleGuide) : List Issue :=
  match styleGuide with
  | none => []
  | some sg =>
      if jsTruthyStr sg.pov then
        let chaptersWithoutPOV := chapters.filter (fun c => !(jsTruthyNat c.pov))
        if chaptersWithoutPOV.length > 0 then [povIssue chaptersWithoutPOV.length]
        else []
      else []

/-! ## Auto-fix (`autoFixIssues`) -/

/-- Replaces the first element satisfying `p` by `f` of it (the JS
`find`-then-mutate idiom touches only the first match). -/
def updateFirst {α : Type} (p : α → Bool) (f : α → α) : List α → List α
  | [] => []
  | c :: cs => if p c then f c :: cs else c :: updateFirst p f cs

/-- Applies the switch body of `autoFixIssues` to one issue, returning the
tagged fixed issue (when a fix was actually applied) and the updated bible.
Only `character-unlisted` has an implemented fix; `duplicate-chapter-number`
and the default case are no-ops.  A `character-unlisted` issue always carries
both ids when produced by the checker; the unreachable missing-id corner
(where JS would push `undefined`) is a no-op here. -/
def applyFix (issue : Issue) (storyBible : StoryBible) (fixMode now : String) :
    Option Issue × StoryBible :=
  if issue.type == "character-unlisted" then
    match issue.chapterId, issue.characterId with
    | some chId, some charId =>
        match (jsArr storyBible.chapters).find? (fun c => c.id == chId) with
        | some chapter =>
            if !(jsIncludes chapter.characters charId) then
              let newChapters := updateFirst (fun c => c.id == chId)
                (fun c => { c with characters := some (jsArr c.characters ++ [charId]) })
                (jsArr storyBible.chapters)
              (some { issue with fixedAt := some now, fixMode := some fixMode },
               { storyBible with chapters := some newChapters })
            else (none, storyBible)
        | none => (none, storyBible)
    | _, _ => (none, storyBible)
  else (none, storyBible)

/-- `autoFixIssues(issues, storyBible, fixMode)`: in `conservative` mode only
`severity === 'minor'` issues reach the switch. -/
def autoFixIssues (issues : List Issue) (storyBible : StoryBible)
    (fixMode now : String) : List Issue × StoryBible :=
  match issues with
  | [] => ([], storyBible)
  | issue :: rest =>
      if fixMode == "conservative" && issue.severity != "minor" then
        autoFixIssues rest storyBible fixMode now
      else
        match applyFix issue storyBible fixMode now with
        | (some fixedIssue, sb') =>
            let (restFixed, sb'') := autoFixIssues rest sb' fixMode now
            (fixedIssue :: restFixed, sb'')
        | (none, sb') => autoFixIssues rest sb' fixMode now


/-! ## check-consistency pipeline (`checkConsistencyDirect`) -/

/-- The chapter-range filter:
`chapterNum = c.chapterNumber || 0; chapterNum >= startChapter && (endChapter ? chapterNum <= endChapter : true)`. -/
def inChapterRange (startChapter : Nat) (endChapter : Option Nat) (c : Chapter) : Bool :=
  let chapterNum := c.chapterNumber.getD 0
  decide (chapterNum ≥ startChapter) &&
    (if jsTruthyNat endChapter then decide (chapterNum ≤ endChapter.getD 0) else true)

def targetChaptersOf (chapters : List Chapter) (startChapter : Nat)
    (endChapter : Option Nat) : List Chapter :=
  chapters.filter (inChapterRange startChapter endChapter)

/-- Outcome of the best-effort AI analysis call (only attempted when issues
exist and a session is present); a thrown error is swallowed. -/
inductive AiAnalysisOutcome where
  | ok (text : String)
  | failure (message : String)
deriving Repr, DecidableEq

/-- Result of the core of `checkConsistencyDirect` once the bible is loaded:
issue list, advisory suggestions, applied fixes, the (possibly mutated)
bible, and whether the bible was re-persisted. -/
structure ConsistencyRun where
  issues : List Issue
  suggestions : List Suggestion
  fixedIssues : List Issue
  bible : StoryBible
  bibleSaved : Bool
deriving Repr, DecidableEq

/-- The issue-gathering part of `checkConsistencyDirect`: the four rule
families, each guarded by the `checkType`, over the range-filtered chapters
and the optionally-filtered character / plot-thread collections. -/
def consistencyIssues (storyBible : StoryBible) (checkType : String)
    (characterId plotThreadId : Option Nat) (startChapter : Nat)
    (endChapter : Option Nat) : List Issue :=
  let chapters := jsArr storyBible.chapters
  let characters := jsArr storyBible.characters
  let scenes := jsArr storyBible.scenes
  let plotThreads := jsArr storyBible.plotThreads
  let targetChapters := targetChaptersOf chapters startChapter endChapter
  (if checkType == "character" || checkType == "all" then
     checkCharacterConsistency
       (if jsTruthyNat characterId then
          characters.filter (fun c => c.id == characterId.getD 0)
        else characters)
       targetChapters scenes
   else []) ++
  (if checkType == "plot" || checkType == "all" then
     checkPlotConsistency
       (if jsTruthyNat plotThreadId then
          plotThreads.filter (fun p => p.id == plotThreadId.getD 0)
        else plotThreads)
       targetChapters
   else []) ++
  (if checkType == "timeline" || checkType == "all" then
     checkTimelineConsistency targetChapters
   else []) ++
  (if checkType == "style" || checkType == "all" then
     checkStyleConsistency targetChapters storyBible.style
   else [])

/-- Body of `checkConsistencyDirect` after the story bible is loaded
(report generation is a side artifact and not modelled; `session` says
whether an MCP session is available for the advisory AI call). -/
def checkConsistencyCore (storyBible : StoryBible) (checkType : String)
    (characterId plotThreadId : Option Nat) (startChapter : Nat)
    (endChapter : Option Nat) (autoFix : Bool) (fixMode : String)
    (session : Bool) (aiAnalysis : AiAnalysisOutcome) (now : String) :
    ConsistencyRun :=
  let issues := consistencyIssues storyBible checkType characterId plotThreadId
    startChapter endChapter
  let suggestions :=
    if issues.length > 0 && session then
      match aiAnalysis with
      | .ok text => [{ type := "ai-analysis", content := text }]
      | .failure _ => []
    else []
  let (fixedIssues, bible1) :=
    if autoFix && issues.length > 0 then autoFixIssues issues storyBible fixMode now
    else ([], storyBible)
  if fixedIssues.length > 0 then
    { issues := issues, suggestions := suggestions, fixedIssues := fixedIssues
      bible := { bible1 with meta := { bible1.meta with updatedAt := now } }
      bibleSaved := true }
  else
    { issues := issues, suggestions := suggestions, fixedIssues := fixedIssues
      bible := bible1, bibleSaved := false }

/-- Outcome of a direct function: the JS `{success:false, message, error}`
shape, or a success carrying structured data (its human-readable message is
presentation of the data and is not modelled). -/
inductive DirectOutcome (α : Type) where
  | failed (message : String) (error : String)
  | succeeded (data : α)
deriving Repr, DecidableEq

/-- The fixed advisory failure text used by next-chapter, parse-premise's
siblings, check-consistency, get-story-status and generate-chapter when
`story-bible/story-bible.json` is absent. -/
def noBibleMessage : String :=
  "❌ No story bible found. Run \"parse-premise\" first to set up your story structure."

/-- The same advisory text as it appears byte-for-byte in
`create-character.js` (that file's emoji are stored in a mangled encoding in
the source tree). -/
def noBibleMessageCreateCharacter : String :=
  "‚ùå No story bible found. Run \"parse-premise\" first to set up your story structure."

def noBibleError : String := "Story bible not found"

/-- `checkConsistencyDirect` over the document store: the existence check,
then the core pipeline; returns the result and the store after the call. -/
def checkConsistencyDirect (store : Option StoryBible) (checkType : String)
    (characterId plotThreadId : Option Nat) (startChapter : Nat)
    (endChapter : Option Nat) (autoFix : Bool) (fixMode : String)
    (session : Bool) (aiAnalysis : AiAnalysisOutcome) (now : String) :
    DirectOutcome ConsistencyRun × Option StoryBible :=
  match store with
  | none => (.failed noBibleMessage noBibleError, none)
  | some storyBible =>
      let run := checkConsistencyCore storyBible checkType characterId plotThreadId
        startChapter endChapter autoFix fixMode session aiAnalysis now
      (.succeeded run, some run.bible)

/-! ## Status derivation (`get-story-status.js`) -/

structure ChapterStats where
  total : Nat
  draft : Nat
  inProgress : Nat
  completed : Nat
  review : Nat
  needsRevision : Nat
  published : Nat
deriving Repr, DecidableEq

structure CharacterStats where
  total : Nat
  protagonist : Nat
  antagonist : Nat
  supporting : Nat
  minor : Nat
  completed : Nat
deriving Repr, DecidableEq

structure SceneStats where
  total : Nat
  completed : Nat
deriving Repr, DecidableEq

structure ThreadStats where
  total : Nat
  completed : Nat
deriving Repr, DecidableEq

structure Stats where
  premise : Nat
  chapters : ChapterStats
  characters : CharacterStats
  scenes : SceneStats
  plotThreads : ThreadStats
deriving Repr, DecidableEq

/-- The `stats` object computed by `getStoryStatusDirect`. -/
def storyStats (storyBible : StoryBible) : Stats :=
  let premise := storyBible.premise
  let chapters := jsArr storyBible.chapters
  let characters := jsArr storyBible.characters
  let scenes := jsArr storyBible.scenes
  let plotThreads := jsArr storyBible.plotThreads
  { premise :=
      match premise with
      | some p => if p.status == "completed" then 1 else 0
      | none => 0
    chapters :=
      { total := chapters.length
        draft := (chapters.filter (fun c => c.status == "draft")).length
        inProgress := (chapters.filter (fun c => c.status == "in-progress")).length
        completed := (chapters.filter (fun c => c.status == "completed")).length
        review := (chapters.filter (fun c => c.status == "review")).length
        needsRevision := (chapters.filter (fun c => c.status == "needs-revision")).length
        published := (chapters.filter (fun c => c.status == "published")).length }
    characters :=
      { total := characters.length
        protagonist := (characters.filter (fun c => c.characterType == "protagonist")).length
        antagonist := (characters.filter (fun c => c.characterType == "antagonist")).length
        supporting := (characters.filter (fun c => c.characterType == "supporting")).length
        minor := (characters.filter (fun c => c.characterType == "minor")).length
        completed := (characters.filter (fun c => c.status == "completed")).length }
    scenes :=
      { total := scenes.length
        completed := (scenes.filter (fun s => s.status == "completed")).length }
    plotThreads :=
      { total := plotThreads.length
        completed := (plotThreads.filter (fun p => p.status == "completed")).length } }

/-- `calculateOverallCompletion(stats)`: sequential accumulation of weights
and completed weights over the four categories, then a rounded percentage
(`0` when nothing contributes). -/
def calculateOverallCompletion (stats : Stats) : ℤ :=
  let wPremise : ℚ := 10
  let wChapters : ℚ := 60
  let wCharacters : ℚ := 20
  let wPlotThreads : ℚ := 10
  let tw0 : ℚ := 0
  let cw0 : ℚ := 0
  let (tw1, cw1) :=
    if stats.premise > 0 then (tw0 + wPremise, cw0 + wPremise) else (tw0, cw0)
  let (tw2, cw2) :=
    if stats.chapters.total > 0 then
      (tw1 + wChapters,
       cw1 + ((stats.chapters.completed : ℚ) / (stats.chapters.total : ℚ)) * wChapters)
    else (tw1, cw1)
  let (tw3, cw3) :=
    if stats.characters.total > 0 then
      (tw2 + wCharacters,
       cw2 + ((stats.characters.completed : ℚ) / (stats.characters.total : ℚ)) * wCharacters)
    else (tw2, cw2)
  let (tw4, cw4) :=
    if stats.plotThreads.total > 0 then
      (tw3 + wPlotThreads,
       cw3 + ((stats.plotThreads.completed : ℚ) / (stats.plotThreads.total : ℚ)) * wPlotThreads)
    else (tw3, cw3)
  if tw4 > 0 then jsRound (cw4 / tw4 * 100) else 0

/-- Per-collection rounded percentage (`total > 0 ? round(completed/total*100) : 0`). -/
def pctOf (completed total : Nat) : ℤ :=
  if total > 0 then jsRound ((completed : ℚ) / (total : ℚ) * 100) else 0

structure Completion where
  overall : ℤ
  chapters : ℤ
  characters : ℤ
  scenes : ℤ
  plotThreads : ℤ
deriving Repr, DecidableEq

def storyCompletion (stats : Stats) : Completion :=
  { overall := calculateOverallCompletion stats
    chapters := pctOf stats.chapters.completed stats.chapters.total
    characters := pctOf stats.characters.completed stats.characters.total
    scenes := pctOf stats.scenes.completed stats.scenes.total
    plotThreads := pctOf stats.plotThreads.completed stats.plotThreads.total }

/-- The `data` payload of a successful `getStoryStatusDirect`. -/
structure StatusData where
  stats : Stats
  completion : Completion
  meta : Meta
  chapters : Option (List Chapter)
  characters : Option (List Character)
  plotThreads : Option (List PlotThread)
deriving Repr, DecidableEq

/-- `getStoryStatusDirect`: read-only; the store is returned unchanged in
both branches. -/
def getStoryStatusDirect (store : Option StoryBible)
    (includeChapters includeCharacters includePlotThreads : Bool) :
    DirectOutcome StatusData × Option StoryBible :=
  match store with
  | none => (.failed noBibleMessage noBibleError, none)
  | some storyBible =>
      let stats := storyStats storyBible
      (.succeeded
        { stats := stats
          completion := storyCompletion stats
          meta := storyBible.meta
          chapters := if includeChapters then some (jsArr storyBible.chapters) else none
          characters := if includeCharacters then some (jsArr storyBible.characters) else none
          plotThreads := if includePlotThreads then some (jsArr storyBible.plotThreads) else none },
       some storyBible)

/-- Claim-side restatement of §4.4 / C4 for comparison with
`calculateOverallCompletion`: the rounded weighted average over the
categories with at least one element (weights premise 10, chapters 60,
characters 20, plot threads 10). -/
def specOverallCompletion (stats : Stats) : ℤ :=
  let cats : List (ℚ × ℚ) :=
    (if stats.premise > 0 then [((10 : ℚ), (1 : ℚ))] else []) ++
    (if stats.chapters.total > 0 then
       [((60 : ℚ), (stats.chapters.completed : ℚ) / (stats.chapters.total : ℚ))] else []) ++
    (if stats.characters.total > 0 then
       [((20 : ℚ), (stats.characters.completed : ℚ) / (stats.characters.total : ℚ))] else []) ++
    (if stats.plotThreads.total > 0 then
       [((10 : ℚ), (stats.plotThreads.completed : ℚ) / (stats.plotThreads.total : ℚ))] else [])
  let den : ℚ := (cats.map (fun p => p.1)).sum
  let num : ℚ := (cats.map (fun p => p.1 * p.2)).sum
  if den > 0 then jsRound (num / den * 100) else 0

/-! ## Character factory (`create-character.js`) -/

/-- The enrichment payload fields the factory reads off the parsed AI
response (`aiCharacter.description`, `.motivations`, `.fears`, `.goals`,
`.traits`, `.arc`); any of them may be absent on a raw parsed value. -/
structure AiCharacterData where
  description : Option String
  motivations : Option (List String)
  fears : Option (List String)
  goals : Option (List String)
  traits : Option (List String)
  arc : Option String
deriving Repr, DecidableEq

/-- Outcome of the `generateTextService` call in the character factory:
`failure` models the call throwing (which propagates to the outer `catch`);
`response none` models a returned value that the local `JSON.parse`
try/catch could not parse — or that parsed to a falsy value — so
`aiCharacter` ends up `null`; `response (some ai)` models a truthy parsed
payload. -/
inductive CharSvc where
  | failure (message : String)
  | response (aiCharacter : Option AiCharacterData)
deriving Repr, DecidableEq

structure CreateCharacterData where
  character : Character
  id : Nat
deriving Repr, DecidableEq

/-- The no-premise failure text of `create-character.js` (same mangled emoji
encoding as its no-bible message). -/
def noPremiseMessageCreateCharacter : String :=
  "‚ùå No premise found in story bible. Complete premise setup first."

/-- `Math.max(...characters.map(c => c.id)) + 1`, defaulting to 1 for an
empty collection. -/
def nextCharacterId (existingCharacters : List Character) : Nat :=
  if existingCharacters.length > 0 then listMaxNat (existingCharacters.map (·.id)) + 1
  else 1

/-- The baseline `characterProfile` object assembled before enrichment. -/
def baselineCharacter (existingCharacters : List Character)
    (name characterType : String) (description : Option String)
    (priority now : String) : Character :=
  { id := nextCharacterId existingCharacters, type := "character", title := name
    description := jsOrStr description (characterType ++ " character")
    characterType := characterType, status := "draft", priority := priority
    psychology := none, traits := none, arc := none
    createdAt := now, updatedAt := now }

/-- The enrichment merge applied when the parsed AI payload is truthy. -/
def enrichCharacter (base : Character) (ai : AiCharacterData) : Character :=
  { base with
    description := jsOrStr ai.description base.description
    psychology := some
      { motivations := ai.motivations.getD []
        fears := ai.fears.getD []
        goals := ai.goals.getD [] }
    traits := some (ai.traits.getD [])
    arc := some { summary := some (jsOrStr ai.arc "To be developed") } }

/-- `createCharacterDirect`.  The character markdown mirror file is not
modelled; the story-bible append and `meta.updatedAt` bump are.  Note the
service call only happens when at least one generate flag is set, and a
service *throw* reaches the outer catch (`Failed to create character: ...`)
before any write. -/
def createCharacterDirect (store : Option StoryBible) (name characterType : String)
    (description : Option String) (generateProfile generateArc generateVoice : Bool)
    (priority : String) (svc : CharSvc) (now : String) :
    DirectOutcome CreateCharacterData × Option StoryBible :=
  match store with
  | none => (.failed noBibleMessageCreateCharacter noBibleError, none)
  | some storyBible =>
      match storyBible.premise with
      | none => (.failed noPremiseMessageCreateCharacter "Premise not found", some storyBible)
      | some _premise =>
          let existingCharacters := jsArr storyBible.characters
          let base := baselineCharacter existingCharacters name characterType
            description priority now
          let enriched : Except String Character :=
            if generateProfile || generateArc || generateVoice then
              match svc with
              | .failure e => .error e
              | .response none => .ok base
              | .response (some ai) => .ok (enrichCharacter base ai)
            else .ok base
          match enriched with
          | .error e => (.failed ("Failed to create character: " ++ e) e, some storyBible)
          | .ok characterProfile =>
              let newBible :=
                { storyBible with
                  characters := some (jsArr storyBible.characters ++ [characterProfile])
                  meta := { storyBible.meta with updatedAt := now } }
              (.succeeded { character := characterProfile, id := nextCharacterId existingCharacters },
               some newBible)

/-! ## Chapter factory (`generate-chapter`) -/

/-- Fields read off the parsed AI chapter response. -/
structure AiChapterData where
  title : Option String
  description : Option String
  purpose : Option String
  conflicts : Option (List String)
  plotAdvancement : Option String
  characterMoments : Option (List String)
deriving Repr, DecidableEq

/-- Outcome of the `generateTextService` call in the chapter factory,
analogous to `CharSvc`. -/
inductive ChapterSvc where
  | failure (message : String)
  | response (aiChapter : Option AiChapterData)
deriving Repr, DecidableEq

structure GenerateChapterData where
  chapter : Chapter
  isNewChapter : Bool
  sceneCount : Nat
deriving Repr, DecidableEq

/-- `${o}` on a possibly-absent JS number. -/
def optNatStr (o : Option Nat) : String :=
  match o with
  | some n => toString n
  | none => "undefined"

/-- One placeholder scene of the chapter generator loop
(`sceneId = (storyBible.scenes?.length || 0) + i`, defaults
`sceneType: 'dialogue'`, `status: 'draft'`). -/
def mkGeneratedScene (workingChapter : Chapter) (now : String) (baseLen i : Nat) : Scene :=
  { id := baseLen + i
    type := "scene"
    title := workingChapter.title ++ " - Scene " ++ toString i
    description := "Scene " ++ toString i ++ " of chapter " ++ optNatStr workingChapter.chapterNumber
    sceneType := "dialogue"
    chapterId := workingChapter.id
    characters := some (jsArr workingChapter.characters)
    setting := "To be determined"
    purpose := "Advance chapter goals - scene " ++ toString i
    status := "draft"
    priority := "medium"
    createdAt := now, updatedAt := now }

/-- `generateChapterDirect`.  The chapter markdown mirror is not modelled.
On the update path JS would throw if the existing chapter lacks a `scenes`
array; that corner is embedded as an append to the empty list (no claim
touches it). -/
def generateChapterDirect (store : Option StoryBible) (chapterId chapterNumber : Option Nat)
    (title purpose : Option String) (targetWordCount : Nat) (generateScenes : Bool)
    (sceneCount : Nat) (characters plotThreads : Option (List Nat))
    (conflicts : Option (List String)) (priority : String) (svc : ChapterSvc)
    (now : String) : DirectOutcome GenerateChapterData × Option StoryBible :=
  match store with
  | none => (.failed noBibleMessage noBibleError, none)
  | some storyBible =>
      let existingChapters := jsArr storyBible.chapters
      let found :=
        if jsTruthyNat chapterId then
          match existingChapters.find? (fun c => c.id == chapterId.getD 0) with
          | some wc => Except.ok (wc, false)
          | none => Except.error ()
        else
          let nextId :=
            if existingChapters.length > 0 then
              listMaxNat (existingChapters.map (·.id)) + 1
            else 1
          let nextChapterNum :=
            if jsTruthyNat chapterNumber then chapterNumber.getD 0
            else if existingChapters.length > 0 then
              listMaxNat (existingChapters.map (fun c => c.chapterNumber.getD 0)) + 1
            else 1
          Except.ok
            ({ id := nextId, type := "chapter"
               title := jsOrStr title ("Chapter " ++ toString nextChapterNum)
               chapterNumber := some nextChapterNum
               description := jsOrStr purpose "Chapter description to be developed"
               purpose := jsOrStr purpose "Chapter purpose to be defined"
               status := "draft", priority := priority
               characters := some (jsArr characters)
               plotThreads := some (jsArr plotThreads)
               conflicts := some (jsArr conflicts)
               scenes := some []
               plotAdvancement := none, characterMoments := none, pov := none
               wordCountTarget := some targetWordCount
               createdAt := now, updatedAt := now }, true)
      match found with
      | .error _ =>
          (.failed ("❌ Chapter with ID " ++ toString (chapterId.getD 0) ++ " not found.")
            "Chapter not found", some storyBible)
      | .ok (workingChapter, isNewChapter) =>
          match svc with
          | .failure e => (.failed ("Failed to generate chapter: " ++ e) e, some storyBible)
          | .response aiChapter =>
              let enhanced :=
                match aiChapter with
                | none => workingChapter
                | some ai =>
                    { workingChapter with
                      title := jsOrStr ai.title workingChapter.title
                      description := jsOrStr ai.description workingChapter.description
                      purpose := jsOrStr ai.purpose workingChapter.purpose
                      conflicts :=
                        match ai.conflicts with
                        | some l => some l
                        | none => workingChapter.conflicts
                      plotAdvancement := ai.plotAdvancement
                      characterMoments := some (ai.characterMoments.getD []) }
              let baseLen := (jsArr storyBible.scenes).length
              let (finalChapter, newScenes) :=
                if generateScenes then
                  let scenes := (List.range sceneCount).map
                    (fun j => mkGeneratedScene enhanced now baseLen (j + 1))
                  ({ enhanced with
                     scenes := some (jsArr enhanced.scenes ++
                       (List.range sceneCount).map (fun j => baseLen + (j + 1))) },
                   scenes)
                else (enhanced, [])
              let newChapters :=
                if isNewChapter then existingChapters ++ [finalChapter]
                else updateFirst (fun c => c.id == finalChapter.id) (fun _ => finalChapter)
                  existingChapters
              let newBible :=
                { storyBible with
                  chapters := some newChapters
                  scenes :=
                    if generateScenes then some (jsArr storyBible.scenes ++ newScenes)
                    else storyBible.scenes
                  meta := { storyBible.meta with updatedAt := now } }
              (.succeeded
                { chapter := finalChapter, isNewChapter := isNewChapter
                  sceneCount := (jsArr finalChapter.scenes).length },
               some newBible)

/-! ## Next-chapter recommendation (`nextChapterDirect`) -/

/-- Structured content of the three success shapes of `nextChapterDirect`:
no chapters at all (recommendation "Create first chapter", chapter number 1);
all chapters done (recommendation "Create next chapter"); or a chapter to
work on with the reason and optional scene list. -/
inductive NextChapterData where
  | createFirst
  | createNext (chapterNumber completedChapters totalChapters : Nat)
  | workOn (chapter : Chapter) (reason : String) (scenes : Option (List Scene))
deriving Repr, DecidableEq

/-- `priorityOrder[p] || 2` with `priorityOrder = {high: 3, medium: 2, low: 1}`. -/
def priorityOrderOf (s : String) : Nat :=
  if s == "high" then 3 else if s == "medium" then 2 else if s == "low" then 1 else 2

/-- `chapterNumber || 999`. -/
def chapterNumOr999 (o : Option Nat) : Nat :=
  if jsTruthyNat o then o.getD 0 else 999

/-- The draft-chapter sort comparator: priority descending, then chapter
number ascending. -/
def draftCmp (a b : Chapter) : ℤ :=
  let priorityDiff : ℤ := (priorityOrderOf b.priority : ℤ) - (priorityOrderOf a.priority : ℤ)
  if priorityDiff ≠ 0 then priorityDiff
  else (chapterNumOr999 a.chapterNumber : ℤ) - (chapterNumOr999 b.chapterNumber : ℤ)

/-- Inserts `x` after every element it does not strictly precede (stable
insertion step). -/
def insertBy {α : Type} (lt : α → α → Bool) (x : α) : List α → List α
  | [] => [x]
  | y :: ys => if lt x y then x :: y :: ys else y :: insertBy lt x ys

/-- Stable sort by a strict-order predicate, matching the (stable) JS
`Array.prototype.sort` with a numeric comparator. -/
def stableSortBy {α : Type} (lt : α → α → Bool) (l : List α) : List α :=
  l.foldl (fun acc x => insertBy lt x acc) []

/-- The scene payload of a work-on recommendation. -/
def sceneDataFor (storyBible : StoryBible) (c : Chapter) (includeScenes : Bool) :
    Option (List Scene) :=
  if includeScenes then
    some ((jsArr storyBible.scenes).filter (fun s => jsIncludes c.scenes s.id))
  else none

/-- `nextChapterDirect`: read-only recommendation. -/
def nextChapterDirect (store : Option StoryBible) (status priority : Option String)
    (includeScenes : Bool) (characterFocus plotThread : Option Nat) :
    DirectOutcome NextChapterData × Option StoryBible :=
  match store with
  | none => (.failed noBibleMessage noBibleError, none)
  | some storyBible =>
      let chapters := jsArr storyBible.chapters
      if chapters.length == 0 then (.succeeded .createFirst, some storyBible)
      else
        let candidateChapters := chapters.filter (fun c =>
          (!(jsTruthyStr status) || c.status == status.getD "") &&
          (!(jsTruthyStr priority) || c.priority == priority.getD "") &&
          (!(jsTruthyNat characterFocus) || jsIncludes c.characters (characterFocus.getD 0)) &&
          (!(jsTruthyNat plotThread) || jsIncludes c.plotThreads (plotThread.getD 0)))
        match candidateChapters.filter (fun c => c.status == "in-progress") with
        | c :: _ =>
            (.succeeded (.workOn c "Continue working on chapter already in progress"
              (sceneDataFor storyBible c includeScenes)), some storyBible)
        | [] =>
            match candidateChapters.filter (fun c => c.status == "needs-revision") with
            | c :: _ =>
                (.succeeded (.workOn c "Address revision feedback"
                  (sceneDataFor storyBible c includeScenes)), some storyBible)
            | [] =>
                match stableSortBy (fun a b => draftCmp a b < 0)
                    (candidateChapters.filter (fun c => c.status == "draft")) with
                | c :: _ =>
                    (.succeeded (.workOn c "Continue story progression"
                      (sceneDataFor storyBible c includeScenes)), some storyBible)
                | [] =>
                    let maxChapterNumber :=
                      listMaxNat (chapters.map (fun c => c.chapterNumber.getD 0))
                    (.succeeded (.createNext (maxChapterNumber + 1)
                      ((chapters.filter (fun c => c.status == "completed")).length)
                      chapters.length), some storyBible)

/-! ## Element schema checks (zod schema module)

Validation predicates over the embedded fields, from `BaseStoryElementSchema`
and `CharacterSchema`.  Constraints on fields not represented in the
structures (optional nested blocks with only optional string members) are
vacuous. -/

def STORY_ELEMENT_TYPES : List String :=
  ["premise", "outline", "character", "chapter", "scene", "plot-thread"]

def CHARACTER_TYPES : List String :=
  ["protagonist", "antagonist", "supporting", "minor"]

def GENRE_TYPES : List String :=
  ["fantasy", "romance", "thriller", "mystery", "science-fiction", "literary",
   "young-adult", "horror", "historical"]

/-- Modelled from the spec: `STORY_STATUS_OPTIONS` comes from
`story-status.js`, which is not in the source snapshot; the spec (§3) fixes
the enum as draft, in-progress, review, needs-revision, completed,
published. -/
def STORY_STATUS_OPTIONS : List String :=
  ["draft", "in-progress", "review", "needs-revision", "completed", "published"]

def PRIORITY_OPTIONS : List String := ["high", "medium", "low"]

/-- `BaseStoryElementSchema`'s checks on the embedded character fields:
positive integer `id`, `type` in the element enum, nonempty `title`,
`status` and `priority` in their enums. -/
def validateBaseElement (id : Nat) (type title status priority : String) : Bool :=
  decide (0 < id) && STORY_ELEMENT_TYPES.contains type && decide (1 ≤ title.length) &&
    STORY_STATUS_OPTIONS.contains status && PRIORITY_OPTIONS.contains priority

/-- `CharacterSchema.parse` succeeds on a character iff: base element checks
with `type` literally `character`, and `characterType` in `CHARACTER_TYPES`
(the optional nested blocks carry only optional members and cannot fail on
the embedded representation). -/
def validateCharacter (c : Character) : Bool :=
  validateBaseElement c.id c.type c.title c.status c.priority &&
    c.type == "character" && CHARACTER_TYPES.contains c.characterType

/-! ## Fixtures for concrete witnesses and counterexamples -/

def meta0 : Meta :=
  { title := "Untitled Story", genre := "fantasy", targetWordCount := none
    createdAt := "t0", updatedAt := "t0", version := none }

def mkCharacter (id : Nat) (title : String) : Character :=
  { id := id, type := "character", title := title, description := "d"
    characterType := "supporting", status := "draft", priority := "medium"
    psychology := none, traits := none, arc := none
    createdAt := "t0", updatedAt := "t0" }

def mkChapter (id : Nat) (chapterNumber : Option Nat)
    (characters : Option (List Nat)) (status : String) : Chapter :=
  { id := id, type := "chapter", title := "Chapter " ++ toString id
    chapterNumber := chapterNumber, description := "d", purpose := "p"
    status := status, priority := "medium", characters := characters
    plotThreads := none, conflicts := none, scenes := none
    plotAdvancement := none, characterMoments := none, pov := none
    wordCountTarget := none, createdAt := "t0", updatedAt := "t0" }

def mkScene (id chapterId : Nat) (characters : Option (List Nat)) : Scene :=
  { id := id, type := "scene", title := "Scene " ++ toString id
    description := "d", sceneType := "dialogue", chapterId := chapterId
    characters := characters, setting := "s", purpose := "p"
    status := "draft", priority := "medium", createdAt := "t0", updatedAt := "t0" }

def mkThread (id : Nat) (title status : String) (resolution : Option String) : PlotThread :=
  { id := id, type := "plot-thread", title := title, status := status
    resolution := resolution }

def premise0 : Premise :=
  { id := 1, type := "premise", title := "Story Premise"
    description := "Core story premise and foundation", status := "completed"
    priority := "high", content := "c", genre := "fantasy"
    targetAudience := none, themes := none, wordCountTarget := none
    createdAt := "t0", updatedAt := "t0" }

def mkBible (premise : Option Premise) (characters : Option (List Character))
    (chapters : Option (List Chapter)) (scenes : Option (List Scene))
    (plotThreads : Option (List PlotThread)) : StoryBible :=
  { meta := meta0, premise := premise, characters := characters
    chapters := chapters, scenes := scenes, plotThreads := plotThreads
    style := none }

/-! ## Sorted-distinct helper for the timeline claim -/

/-- Collapses runs of equal adjacent values; on a sorted list this is the
ascending list of distinct values. -/
def squeeze : List Nat → List Nat
  | [] => []
  | [x] => [x]
  | x :: y :: t => if x == y then squeeze (y :: t) else x :: squeeze (y :: t)

/-! ## Concrete instances used by witnesses and counterexamples -/

def c1K : Character := mkCharacter 7 "Kara"

def c1C : Chapter := mkChapter 3 (some 1) (some []) "draft"

def c1S : Scene := mkScene 5 3 (some [7])

def c1Bible : StoryBible := mkBible (some premise0) (some [c1K]) (some [c1C]) (some [c1S]) none

def c2Chapters : List Chapter :=
  [mkChapter 1 (some 1) none "draft", mkChapter 2 (some 2) none "draft",
   mkChapter 3 (some 2) none "draft", mkChapter 4 (some 4) none "draft"]

def c4Bible : StoryBible :=
  mkBible (some premise0) none
    (some [mkChapter 1 (some 1) none "completed", mkChapter 2 (some 2) none "completed",
           mkChapter 3 (some 3) none "draft", mkChapter 4 (some 4) none "draft"])
    none none

def c7Thread : PlotThread := mkThread 9 "The Heist" "completed" none

def c7ThreadResolved : PlotThread := mkThread 9 "The Heist" "completed" (some "resolved")

def c6CA : Chapter := mkChapter 1 (some 1) (some [7]) "draft"

def c6CB : Chapter := mkChapter 2 (some 2) (some [7]) "draft"

def c5Bible : StoryBible := mkBible (some premise0) none none none none

/-- The profile that `createCharacterDirect` persists for an out-of-enum
characterType "villain" on an empty collection with an unparseable AI
response. -/
def c5BadCharacter : Character :=
  { id := 1, type := "character", title := "Bob", description := "villain character"
    characterType := "villain", status := "draft", priority := "medium"
    psychology := none, traits := none, arc := none
    createdAt := "t1", updatedAt := "t1" }

def c6KArc : Character :=
  { mkCharacter 7 "Kara" with arc := some { summary := some "To be developed" } }

/-- The profile `createCharacterDirect` constructs for a given parsed AI
payload: the baseline when the payload is null, the enriched profile when it
is truthy. -/
def constructedProfile (storyBible : StoryBible) (name characterType : String)
    (description : Option String) (priority now : String)
    (ai : Option AiCharacterData) : Character :=
  match ai with
  | none => baselineCharacter (jsArr storyBible.characters) name characterType
      description priority now
  | some a => enrichCharacter (baselineCharacter (jsArr storyBible.characters)
      name characterType description priority now) a

def c10Bible : StoryBible :=
  mkBible none none (some [mkChapter 1 none (some []) "draft"])
    (some [mkScene 1 1 (some [5])]) none

/-! ## Classification lemmas for checker output -/

theorem characterIssues_cases {chapters : List Chapter} {scenes : List Scene}
    {ch : Character} {i : Issue} (h : i ∈ characterIssues chapters scenes ch) :
    (∃ c ∈ chapters, i = unlistedIssue ch c) ∨ i = arcUndefinedIssue ch := by
  simp only [characterIssues, List.mem_append, List.mem_filterMap, List.mem_filter] at h
  rcases h with ⟨s, _hs, hg⟩ | harc
  · rcases hfind : chapters.find? (fun c => c.id == s.chapterId) with _ | c
    · rw [hfind] at hg
      simp at hg
    · rw [hfind] at hg
      by_cases hinc : jsIncludes c.characters ch.id
      · simp [hinc] at hg
      · simp [hinc] at hg
        exact Or.inl ⟨c, List.mem_of_find?_eq_some hfind, hg.symm⟩
  · rcases harc' : ch.arc with _ | arc
    · rw [harc'] at harc
      simp at harc
    · rw [harc'] at harc
      split_ifs at harc <;> simp_all

theorem checkCharacterConsistency_cases {characters : List Character}
    {chapters : List Chapter} {scenes : List Scene} {i : Issue}
    (h : i ∈ checkCharacterConsistency characters chapters scenes) :
    (∃ ch, ∃ c ∈ chapters, i = unlistedIssue ch c) ∨ ∃ ch, i = arcUndefinedIssue ch := by
  simp only [checkCharacterConsistency, List.mem_flatMap] at h
  obtain ⟨ch, _hch, hi⟩ := h
  rcases characterIssues_cases hi with ⟨c, hc, rfl⟩ | rfl
  · exact Or.inl ⟨ch, c, hc, rfl⟩
  · exact Or.inr ⟨ch, rfl⟩

theorem plotThreadIssues_cases {chapters : List Chapter} {t : PlotThread} {i : Issue}
    (h : i ∈ plotThreadIssues chapters t) :
    i = unusedThreadIssue t ∨ i = unresolvedThreadIssue t := by
  simp only [plotThreadIssues, List.mem_append] at h
  rcases h with h | h <;> split_ifs at h <;> simp_all

theorem checkPlotConsistency_cases {plotThreads : List PlotThread}
    {chapters : List Chapter} {i : Issue}
    (h : i ∈ checkPlotConsistency plotThreads chapters) :
    ∃ t, i = unusedThreadIssue t ∨ i = unresolvedThreadIssue t := by
  simp only [checkPlotConsistency, List.mem_flatMap] at h
  obtain ⟨t, _ht, hi⟩ := h
  exact ⟨t, plotThreadIssues_cases hi⟩

theorem checkTimelineConsistency_cases {chapters : List Chapter} {i : Issue}
    (h : i ∈ checkTimelineConsistency chapters) :
    (∃ a b, i = gapIssue a b) ∨ ∃ n, i = dupIssue n := by
  simp only [checkTimelineConsistency, List.mem_append, List.mem_map] at h
  rcases h with ⟨p, _hp, rfl⟩ | ⟨n, _hn, rfl⟩
  · exact Or.inl ⟨p.1, p.2, rfl⟩
  · exact Or.inr ⟨n, rfl⟩

theorem checkStyleConsistency_cases {chapters : List Chapter}
    {sg : Option StyleGuide} {i : Issue} (h : i ∈ checkStyleConsistency chapters sg) :
    ∃ n, i = povIssue n := by
  rcases sg with _ | g
  · simp [checkStyleConsistency] at h
  · simp only [checkStyleConsistency] at h
    split_ifs at h <;> simp_all

/-- Every issue the pipeline produces is one of the seven fixed records; the
chapter referenced by a `character-unlisted` issue is one of the in-range
chapters. -/
theorem consistencyIssues_cases {storyBible : StoryBible} {checkType : String}
    {characterId plotThreadId : Option Nat} {startChapter : Nat}
    {endChapter : Option Nat} {i : Issue}
    (h : i ∈ consistencyIssues storyBible checkType characterId plotThreadId
      startChapter endChapter) :
    (∃ ch, ∃ c ∈ targetChaptersOf (jsArr storyBible.chapters) startChapter endChapter,
      i = unlistedIssue ch c) ∨
    (∃ ch, i = arcUndefinedIssue ch) ∨
    (∃ t, i = unusedThreadIssue t) ∨ (∃ t, i = unresolvedThreadIssue t) ∨
    (∃ a b, i = gapIssue a b) ∨ (∃ n, i = dupIssue n) ∨ ∃ n, i = povIssue n := by
  simp only [consistencyIssues, List.mem_append] at h
  rcases h with ((h | h) | h) | h
  · by_cases hc : (checkType == "character" || checkType == "all") = true
    · rw [if_pos hc] at h
      rcases checkCharacterConsistency_cases h with ⟨ch, c, hmem, rfl⟩ | ⟨ch, rfl⟩
      · exact Or.inl ⟨ch, c, hmem, rfl⟩
      · exact Or.inr (Or.inl ⟨ch, rfl⟩)
    · rw [if_neg hc] at h
      exact absurd h (List.not_mem_nil _)
  · by_cases hc : (checkType == "plot" || checkType == "all") = true
    · rw [if_pos hc] at h
      rcases checkPlotConsistency_cases h with ⟨t, rfl | rfl⟩
      · exact Or.inr (Or.inr (Or.inl ⟨t, rfl⟩))
      · exact Or.inr (Or.inr (Or.inr (Or.inl ⟨t, rfl⟩)))
    · rw [if_neg hc] at h
      exact absurd h (List.not_mem_nil _)
  · by_cases hc : (checkType == "timeline" || checkType == "all") = true
    · rw [if_pos hc] at h
      rcases checkTimelineConsistency_cases h with ⟨a, b, rfl⟩ | ⟨n, rfl⟩
      · exact Or.inr (Or.inr (Or.inr (Or.inr (Or.inl ⟨a, b, rfl⟩))))
      · exact Or.inr (Or.inr (Or.inr (Or.inr (Or.inr (Or.inl ⟨n, rfl⟩)))))
    · rw [if_neg hc] at h
      exact absurd h (List.not_mem_nil _)
  · by_cases hc : (checkType == "style" || checkType == "all") = true
    · rw [if_pos hc] at h
      obtain ⟨n, rfl⟩ := checkStyleConsistency_cases h
      exact Or.inr (Or.inr (Or.inr (Or.inr (Or.inr (Or.inr ⟨n, rfl⟩)))))
    · rw [if_neg hc] at h
      exact absurd h (List.not_mem_nil _)

/-- In every pipeline output, a `character-unlisted` issue carries severity
`moderate`, and every `minor` issue has another type. -/
theorem consistencyIssues_unlisted_moderate {storyBible : StoryBible}
    {checkType : String} {characterId plotThreadId : Option Nat}
    {startChapter : Nat} {endChapter : Option Nat} {i : Issue}
    (h : i ∈ consistencyIssues storyBible checkType characterId plotThreadId
      startChapter endChapter) :
    (i.type = "character-unlisted" → i.severity = "moderate") ∧
      (i.severity = "minor" → i.type ≠ "character-unlisted") := by
  rcases consistencyIssues_cases h with ⟨ch, c, _, rfl⟩ | ⟨ch, rfl⟩ | ⟨t, rfl⟩ |
    ⟨t, rfl⟩ | ⟨a, b, rfl⟩ | ⟨n, rfl⟩ | ⟨n, rfl⟩ <;>
    simp [unlistedIssue, arcUndefinedIssue, unusedThreadIssue, unresolvedThreadIssue,
      gapIssue, dupIssue, povIssue]

/-! ## Auto-fix behaviour -/

theorem applyFix_of_type_ne {issue : Issue} {storyBible : StoryBible}
    {fixMode now : String} (h : issue.type ≠ "character-unlisted") :
    applyFix issue storyBible fixMode now = (none, storyBible) := by
  simp [applyFix, h]

/-- In conservative mode nothing is fixed when no `minor` issue has type
`character-unlisted` — which is the case for every checker output. -/
theorem autoFixIssues_conservative (issues : List Issue) (storyBible : StoryBible)
    (now : String) :
    (∀ i ∈ issues, i.severity = "minor" → i.type ≠ "character-unlisted") →
    autoFixIssues issues storyBible "conservative" now = ([], storyBible) := by
  induction issues with
  | nil => intro _; rfl
  | cons issue rest ih =>
      intro h
      have hrest : ∀ i ∈ rest, i.severity = "minor" → i.type ≠ "character-unlisted" :=
        fun i hi => h i (List.mem_cons_of_mem _ hi)
      by_cases hsev : issue.severity = "minor"
      · have hty : issue.type ≠ "character-unlisted" :=
          h issue (List.mem_cons_self _ _) hsev
        simp only [autoFixIssues, hsev, bne_self_eq_false, Bool.and_false,
          Bool.false_eq_true, if_false, applyFix_of_type_ne hty]
        exact ih hrest
      · simp only [autoFixIssues]
        rw [if_pos (by simp [hsev])]
        exact ih hrest

/-- C3: with the default `conservative` fix mode, a consistency run never
applies a fix — only `minor` issues pass the conservative gate, the only
implemented fix is for `character-unlisted`, and the checker only ever emits
`character-unlisted` at severity `moderate` — so the fixed list is empty,
the story bible value is untouched and it is not re-persisted. -/
theorem conservative_autofix_is_noop (storyBible : StoryBible) (checkType : String)
    (characterId plotThreadId : Option Nat) (startChapter : Nat)
    (endChapter : Option Nat) (autoFix session : Bool)
    (aiAnalysis : AiAnalysisOutcome) (now : String) :
    (checkConsistencyCore storyBible checkType characterId plotThreadId startChapter
      endChapter autoFix "conservative" session aiAnalysis now).fixedIssues = [] ∧
    (checkConsistencyCore storyBible checkType characterId plotThreadId startChapter
      endChapter autoFix "conservative" session aiAnalysis now).bible = storyBible ∧
    (checkConsistencyCore storyBible checkType characterId plotThreadId startChapter
      endChapter autoFix "conservative" session aiAnalysis now).bibleSaved = false ∧
    ∀ i ∈ (checkConsistencyCore storyBible checkType characterId plotThreadId
      startChapter endChapter autoFix "conservative" session aiAnalysis now).issues,
      i.type = "character-unlisted" → i.severity = "moderate" := by
  have hclass : ∀ i ∈ consistencyIssues storyBible checkType characterId plotThreadId
      startChapter endChapter, i.severity = "minor" → i.type ≠ "character-unlisted" :=
    fun i hi => (consistencyIssues_unlisted_moderate hi).2
  have hfix := autoFixIssues_conservative
    (consistencyIssues storyBible checkType characterId plotThreadId startChapter
      endChapter) storyBible now hclass
  have hcore : checkConsistencyCore storyBible checkType characterId plotThreadId
      startChapter endChapter autoFix "conservative" session aiAnalysis now =
      { issues := consistencyIssues storyBible checkType characterId plotThreadId
          startChapter endChapter
        suggestions :=
          if (consistencyIssues storyBible checkType characterId plotThreadId
              startChapter endChapter).length > 0 && session then
            match aiAnalysis with
            | .ok text => [{ type := "ai-analysis", content := text }]
            | .failure _ => []
          else []
        fixedIssues := [], bible := storyBible, bibleSaved := false } := by
    simp [checkConsistencyCore, hfix]
  refine ⟨by rw [hcore], by rw [hcore], by rw [hcore], ?_⟩
  rw [hcore]
  intro i hi
  exact (consistencyIssues_unlisted_moderate hi).1

/-! ## C1: unlisted character detection and aggressive auto-fix -/

/-- C1: with a character K, a chapter C listing no characters and a scene S
of C listing K, the character check yields exactly the one
`character-unlisted` issue (moderate, referencing C and K); auto-fixing in
`aggressive` mode appends K's id to C's character list and tags the fixed
issue, and re-running the character check on the fixed chapter yields no
issues at all. -/
theorem unlisted_character_detect_and_fix
    (K : Character) (C : Chapter) (S : Scene) (storyBible : StoryBible) (now : String)
    (hC : C.characters = some []) (hS : S.chapterId = C.id)
    (hSK : jsIncludes S.characters K.id = true)
    (hsb : storyBible.chapters = some [C]) :
    checkCharacterConsistency [K] [C] [S] = [unlistedIssue K C] ∧
    (unlistedIssue K C).severity = "moderate" ∧
    (unlistedIssue K C).characterId = some K.id ∧
    (unlistedIssue K C).chapterId = some C.id ∧
    (autoFixIssues (checkCharacterConsistency [K] [C] [S]) storyBible "aggressive" now).2.chapters
      = some [{ C with characters := some [K.id] }] ∧
    (autoFixIssues (checkCharacterConsistency [K] [C] [S]) storyBible "aggressive" now).1
      = [{ unlistedIssue K C with fixedAt := some now, fixMode := some "aggressive" }] ∧
    checkCharacterConsistency [K] [{ C with characters := some [K.id] }] [S] = [] := by
  have hSK' : K.id ∈ S.characters.getD [] := by
    simpa [jsIncludes, jsArr, List.contains, List.elem] using hSK
  have h1 : checkCharacterConsistency [K] [C] [S] = [unlistedIssue K C] := by
    rcases hKarc : K.arc with _ | arc <;>
      simp [checkCharacterConsistency, characterIssues, hSK', hS, hC, hKarc,
        jsIncludes, jsArr, List.contains, List.elem]
  have h2 : autoFixIssues [unlistedIssue K C] storyBible "aggressive" now =
      ([{ unlistedIssue K C with fixedAt := some now, fixMode := some "aggressive" }],
       { storyBible with chapters := some [{ C with characters := some [K.id] }] }) := by
    simp [autoFixIssues, applyFix, unlistedIssue, hsb, hC, jsIncludes, jsArr,
      updateFirst, List.contains, List.elem]
  have h3 : checkCharacterConsistency [K] [{ C with characters := some [K.id] }] [S] = [] := by
    rcases hKarc : K.arc with _ | arc <;>
      simp [checkCharacterConsistency, characterIssues, hSK', hS, hKarc,
        jsIncludes, jsArr, List.contains, List.elem]
  refine ⟨h1, rfl, rfl, rfl, ?_, ?_, h3⟩
  · rw [h1, h2]
  · rw [h1, h2]

/-- Closed instance of the C1 theorem at a concrete story bible. -/
theorem unlisted_character_detect_and_fix_witness :
    checkCharacterConsistency [c1K] [c1C] [c1S] = [unlistedIssue c1K c1C] ∧
    (unlistedIssue c1K c1C).severity = "moderate" ∧
    (unlistedIssue c1K c1C).characterId = some c1K.id ∧
    (unlistedIssue c1K c1C).chapterId = some c1C.id ∧
    (autoFixIssues (checkCharacterConsistency [c1K] [c1C] [c1S]) c1Bible "aggressive" "t1").2.chapters
      = some [{ c1C with characters := some [c1K.id] }] ∧
    (autoFixIssues (checkCharacterConsistency [c1K] [c1C] [c1S]) c1Bible "aggressive" "t1").1
      = [{ unlistedIssue c1K c1C with fixedAt := some "t1", fixMode := some "aggressive" }] ∧
    checkCharacterConsistency [c1K] [{ c1C with characters := some [c1K.id] }] [c1S] = [] :=
  unlisted_character_detect_and_fix c1K c1C c1S c1Bible "t1" rfl rfl (by decide) rfl

/-! ## C2: timeline gaps and duplicate chapter numbers -/

theorem gapPairs_cons2 (x y : Nat) (t : List Nat) :
    gapPairs (x :: y :: t) = (if 1 < y - x then [(x, y)] else []) ++ gapPairs (y :: t) := by
  simp only [gapPairs, adjPairs, List.tail_cons, List.zip_cons_cons, List.filter_cons]
  split_ifs with h <;> simp_all

theorem squeeze_cons (y : Nat) (t : List Nat) : ∃ r, squeeze (y :: t) = y :: r := by
  induction t generalizing y with
  | nil => exact ⟨[], rfl⟩
  | cons z t' ih =>
      by_cases h : y = z
      · subst h
        obtain ⟨r, hr⟩ := ih y
        exact ⟨r, by simpa [squeeze] using hr⟩
      · exact ⟨squeeze (z :: t'), by simp [squeeze, h]⟩

theorem gapPairs_squeeze (l : List Nat) : gapPairs (squeeze l) = gapPairs l := by
  induction l using squeeze.induct with
  | case1 => rfl
  | case2 x => rfl
  | case3 x y t heq ih =>
      have hxy : x = y := by simpa using heq
      subst hxy
      rw [squeeze, if_pos (by simp), ih, gapPairs_cons2]
      simp
  | case4 x y t heq ih =>
      have hxy : x ≠ y := by simpa using heq
      obtain ⟨r, hr⟩ := squeeze_cons y t
      rw [squeeze, if_neg (by simpa using hxy), gapPairs_cons2]
      rw [hr] at ih ⊢
      rw [gapPairs_cons2, ih]

theorem mem_squeeze {a : Nat} {l : List Nat} : a ∈ squeeze l ↔ a ∈ l := by
  induction l using squeeze.induct with
  | case1 => simp [squeeze]
  | case2 x => simp [squeeze]
  | case3 x y t heq ih =>
      have hxy : x = y := by simpa using heq
      subst hxy
      rw [squeeze, if_pos (by simp)]
      simp only [ih, List.mem_cons]
      tauto
  | case4 x y t heq ih =>
      have hxy : x ≠ y := by simpa using heq
      rw [squeeze, if_neg (by simpa using hxy)]
      simp only [List.mem_cons, ih]

theorem squeeze_sorted {l : List Nat} (h : l.Sorted (· ≤ ·)) :
    (squeeze l).Sorted (· < ·) := by
  induction l using squeeze.induct with
  | case1 => simp [squeeze]
  | case2 x => simp [squeeze]
  | case3 x y t heq ih =>
      have hxy : x = y := by simpa using heq
      subst hxy
      rw [squeeze, if_pos (by simp)]
      exact ih h.of_cons
  | case4 x y t heq ih =>
      have hxy : x ≠ y := by simpa using heq
      rw [squeeze, if_neg (by simpa using hxy)]
      have htail : (y :: t).Sorted (· ≤ ·) := h.of_cons
      refine List.Pairwise.cons ?_ (ih htail)
      intro b hb
      have hb' : b ∈ y :: t := mem_squeeze.mp hb
      have hxb : x ≤ b := (List.pairwise_cons.mp h).1 b hb'
      rcases List.mem_cons.mp hb' with rfl | hbt
      · exact lt_of_le_of_ne hxb hxy
      · have hyb : y ≤ b := (List.pairwise_cons.mp htail).1 b hbt
        have hxy' : x < y :=
          lt_of_le_of_ne ((List.pairwise_cons.mp h).1 y (List.mem_cons_self y t)) hxy
        exact lt_of_lt_of_le hxy' hyb

theorem jsDupScan_count (l : List Nat) (n : Nat) :
    ∀ seen : List Nat,
      (jsDupScan seen l).count n = if n ∈ seen then l.count n else l.count n - 1 := by
  induction l with
  | nil => intro seen; simp [jsDupScan]
  | cons x xs ih =>
      intro seen
      by_cases hx : x ∈ seen
      · rw [jsDupScan, if_pos (List.elem_eq_true_of_mem hx), List.count_cons,
          ih (seen ++ [x])]
        simp only [List.mem_append, List.mem_singleton, beq_iff_eq, List.count_cons]
        by_cases hxn : x = n
        · subst hxn
          simp [hx]
        · have : ¬(x == n) = true := by simpa using hxn
          split_ifs <;> simp_all
      · rw [jsDupScan, if_neg (fun hc => hx (List.mem_of_elem_eq_true hc)),
          ih (seen ++ [x]), List.count_cons]
        simp only [List.mem_append, List.mem_singleton, beq_iff_eq]
        by_cases hxn : x = n
        · subst hxn
          simp [hx]
        · have hnx : ¬n = x := fun h => hxn h.symm
          split_ifs <;> simp_all

theorem mem_jsDupScan {l : List Nat} {n : Nat} :
    n ∈ jsDupScan [] l ↔ 1 < l.count n := by
  rw [← List.count_pos_iff, jsDupScan_count l n [], if_neg (List.not_mem_nil n)]
  omega

theorem gapIssue_type (a b : Nat) : (gapIssue a b).type = "chapter-sequence-gap" := rfl

theorem dupIssue_type (n : Nat) : (dupIssue n).type = "duplicate-chapter-number" := rfl

theorem gap_filter_keeps (ps : List (Nat × Nat)) :
    (ps.map (fun p => gapIssue p.1 p.2)).filter
      (fun i => i.type == "chapter-sequence-gap") = ps.map (fun p => gapIssue p.1 p.2) := by
  induction ps with
  | nil => rfl
  | cons p t ih => simp [List.filter_cons, gapIssue_type, ih]

theorem gap_filter_drops_dups (ns : List Nat) :
    (ns.map dupIssue).filter (fun i => i.type == "chapter-sequence-gap") = [] := by
  induction ns with
  | nil => rfl
  | cons m t ih => simp [List.filter_cons, dupIssue_type, ih]

theorem dup_filter_drops_gaps (ps : List (Nat × Nat)) :
    (ps.map (fun p => gapIssue p.1 p.2)).filter
      (fun i => i.type == "duplicate-chapter-number") = [] := by
  induction ps with
  | nil => rfl
  | cons p t ih => simp [List.filter_cons, gapIssue_type, ih]

theorem dup_filter_keeps (ns : List Nat) :
    (ns.map dupIssue).filter (fun i => i.type == "duplicate-chapter-number") =
      ns.map dupIssue := by
  induction ns with
  | nil => rfl
  | cons m t ih => simp [List.filter_cons, dupIssue_type, ih]

/-- C2: on chapters numbered `[1, 2, 2, 4]` the timeline check yields exactly
one `chapter-sequence-gap` issue (between 2 and 4, minor) and exactly one
`duplicate-chapter-number` issue (number 2, critical); in general the gap
issues are exactly one per adjacent pair of the ascending-sorted distinct
chapter numbers differing by more than 1, and a number receives a duplicate
issue iff it occurs more than once among the (truthy) chapter numbers. -/
theorem timeline_gaps_and_duplicates :
    checkTimelineConsistency c2Chapters = [gapIssue 2 4, dupIssue 2] ∧
    (gapIssue 2 4).severity = "minor" ∧ (dupIssue 2).severity = "critical" ∧
    ∀ chapters : List Chapter,
      ((checkTimelineConsistency chapters).filter
          (fun i => i.type == "chapter-sequence-gap") =
        (gapPairs (squeeze (sortedChapterNumbers chapters))).map
          (fun p => gapIssue p.1 p.2)) ∧
      (squeeze (sortedChapterNumbers chapters)).Sorted (· < ·) ∧
      ((checkTimelineConsistency chapters).filter
          (fun i => i.type == "duplicate-chapter-number") =
        (jsDupScan [] (sortedChapterNumbers chapters)).map dupIssue) ∧
      ∀ n, n ∈ jsDupScan [] (sortedChapterNumbers chapters) ↔
        1 < (((chapters.map (·.chapterNumber)).filterMap id).filter
          (fun m => m ≠ 0)).count n := by
  refine ⟨by decide, rfl, rfl, ?_⟩
  intro chapters
  have hdef : checkTimelineConsistency chapters =
      ((gapPairs (sortedChapterNumbers chapters)).map (fun p => gapIssue p.1 p.2)) ++
        ((jsDupScan [] (sortedChapterNumbers chapters)).map dupIssue) := rfl
  have hsortle : (sortedChapterNumbers chapters).Sorted (· ≤ ·) :=
    List.sorted_insertionSort (· ≤ ·) _
  refine ⟨?_, squeeze_sorted hsortle, ?_, ?_⟩
  · rw [hdef, List.filter_append, gap_filter_keeps, gap_filter_drops_dups,
      List.append_nil, gapPairs_squeeze]
  · rw [hdef, List.filter_append, dup_filter_drops_gaps, dup_filter_keeps,
      List.nil_append]
  · intro n
    rw [mem_jsDupScan]
    have hperm := List.perm_insertionSort (· ≤ ·)
      (((chapters.map (·.chapterNumber)).filterMap id).filter (fun m => m ≠ 0))
    rw [sortedChapterNumbers, hperm.count_eq]

/-! ## C4: weighted overall completion -/

/-- C4: `calculateOverallCompletion` is exactly the rounded weighted average
of the claim (weights premise 10, chapters 60, characters 20, plot threads
10; only categories with a nonzero count enter the denominator), and on a
bible with a completed premise, 2 of 4 chapters completed, no characters and
no plot threads it yields `round((10 + (2/4)*60)/(10+60)*100) = 57`. -/
theorem weighted_overall_completion :
    (∀ stats : Stats, calculateOverallCompletion stats = specOverallCompletion stats) ∧
    (storyStats c4Bible).premise = 1 ∧
    (storyStats c4Bible).chapters.total = 4 ∧
    (storyStats c4Bible).chapters.completed = 2 ∧
    (storyStats c4Bible).characters.total = 0 ∧
    (storyStats c4Bible).plotThreads.total = 0 ∧
    (storyCompletion (storyStats c4Bible)).overall = 57 := by
  refine ⟨?_, rfl, rfl, rfl, rfl, rfl, ?_⟩
  · intro stats
    unfold calculateOverallCompletion specOverallCompletion
    by_cases h1 : stats.premise > 0 <;> by_cases h2 : stats.chapters.total > 0 <;>
      by_cases h3 : stats.characters.total > 0 <;>
      by_cases h4 : stats.plotThreads.total > 0 <;>
      simp only [h1, h2, h3, h4, if_true, if_false, List.append_nil, List.nil_append,
        List.append_assoc, List.map_cons, List.map_nil, List.sum_cons, List.sum_nil,
        List.cons_append, ite_true, ite_false] <;>
      norm_num <;> (try congr 1) <;> ring_nf
  · have hstats : storyStats c4Bible =
        { premise := 1
          chapters := { total := 4, draft := 2, inProgress := 0, completed := 2,
                        review := 0, needsRevision := 0, published := 0 }
          characters := { total := 0, protagonist := 0, antagonist := 0,
                          supporting := 0, minor := 0, completed := 0 }
          scenes := { total := 0, completed := 0 }
          plotThreads := { total := 0, completed := 0 } } := by decide
    have hov : (storyCompletion (storyStats c4Bible)).overall =
        calculateOverallCompletion (storyStats c4Bible) := rfl
    rw [hov, hstats, calculateOverallCompletion]
    norm_num
    rw [jsRound, Int.floor_eq_iff]
    constructor <;> norm_num

/-! ## C7: unresolved completed plot threads -/

theorem plotContrib_ne {chapters : List Chapter} {u : PlotThread} {tid : Nat}
    (h : u.id ≠ tid) :
    (plotThreadIssues chapters u).filter
      (fun i => i.type == "plot-thread-unresolved" && i.plotThreadId == some tid) = [] := by
  rw [plotThreadIssues, List.filter_append]
  split_ifs <;> simp [unusedThreadIssue, unresolvedThreadIssue, h]

theorem plotContrib_self (chapters : List Chapter) (t : PlotThread) :
    (plotThreadIssues chapters t).filter
      (fun i => i.type == "plot-thread-unresolved" && i.plotThreadId == some t.id) =
    if (t.status == "completed" && !(jsTruthyStr t.resolution)) = true then
      [unresolvedThreadIssue t]
    else [] := by
  rw [plotThreadIssues, List.filter_append]
  split_ifs with h1 h2 h3 <;> simp_all [unusedThreadIssue, unresolvedThreadIssue]

theorem plotFilter_zero (us : List PlotThread) (chapters : List Chapter) (tid : Nat)
    (h : ∀ v ∈ us, v.id ≠ tid) :
    (checkPlotConsistency us chapters).filter
      (fun i => i.type == "plot-thread-unresolved" && i.plotThreadId == some tid) = [] := by
  induction us with
  | nil => rfl
  | cons u rest ih =>
      rw [checkPlotConsistency, List.flatMap_cons, List.filter_append]
      rw [plotContrib_ne (h u (List.mem_cons_self u rest))]
      rw [List.nil_append]
      exact ih (fun v hv => h v (List.mem_cons_of_mem _ hv))

/-- Counting `plot-thread-unresolved` issues referencing a given thread when
thread ids are distinct: one iff the thread is `completed` with a falsy
`resolution`, else zero. -/
theorem plotUnresolvedCount (threads : List PlotThread) (chapters : List Chapter)
    (t : PlotThread) (hmem : t ∈ threads) (hnodup : (threads.map (·.id)).Nodup) :
    ((checkPlotConsistency threads chapters).filter
      (fun i => i.type == "plot-thread-unresolved" && i.plotThreadId == some t.id)).length =
    if (t.status == "completed" && !(jsTruthyStr t.resolution)) = true then 1 else 0 := by
  induction threads with
  | nil => cases hmem
  | cons u rest ih =>
      have hnodup' : (rest.map (·.id)).Nodup := (List.nodup_cons.mp hnodup).2
      have hufresh : u.id ∉ rest.map (·.id) := (List.nodup_cons.mp hnodup).1
      rw [checkPlotConsistency, List.flatMap_cons, List.filter_append, List.length_append]
      rcases List.mem_cons.mp hmem with rfl | hrest
      · rw [plotContrib_self]
        have hzero : ((checkPlotConsistency rest chapters).filter
            (fun i => i.type == "plot-thread-unresolved" && i.plotThreadId == some t.id)).length = 0 := by
          rw [plotFilter_zero rest chapters t.id
            (fun v hv habs => hufresh (habs ▸ List.mem_map_of_mem (·.id) hv))]
          rfl
        rw [checkPlotConsistency] at hzero
        rw [hzero]
        split_ifs <;> rfl
      · have hune : u.id ≠ t.id := fun habs =>
          hufresh (habs ▸ List.mem_map_of_mem (·.id) hrest)
        rw [plotContrib_ne hune]
        have := ih hrest hnodup'
        rw [checkPlotConsistency] at this
        rw [List.length_nil, this]
        omega

/-- C7: a plot thread marked `completed` with no `resolution` yields exactly
one `plot-thread-unresolved` issue (moderate) referencing its id, and any
thread whose `resolution` is a non-empty string yields none — so setting a
non-empty resolution and re-running the check removes the issue. -/
theorem plot_thread_unresolved_check (threads : List PlotThread)
    (chapters : List Chapter) (t : PlotThread) (hmem : t ∈ threads)
    (hnodup : (threads.map (·.id)).Nodup)
    (hst : t.status = "completed") (hres : t.resolution = none) :
    ((checkPlotConsistency threads chapters).filter
      (fun i => i.type == "plot-thread-unresolved" && i.plotThreadId == some t.id)).length = 1 ∧
    (unresolvedThreadIssue t).severity = "moderate" ∧
    ∀ (threads' : List PlotThread) (u : PlotThread) (r : String),
      u ∈ threads' → (threads'.map (·.id)).Nodup → u.resolution = some r → r ≠ "" →
      ((checkPlotConsistency threads' chapters).filter
        (fun i => i.type == "plot-thread-unresolved" && i.plotThreadId == some u.id)).length = 0 := by
  refine ⟨?_, rfl, ?_⟩
  · rw [plotUnresolvedCount threads chapters t hmem hnodup, if_pos (by simp [hst, hres, jsTruthyStr])]
  · intro threads' u r hmem' hnodup' hres' hr
    rw [plotUnresolvedCount threads' chapters u hmem' hnodup',
      if_neg (by simp [hres', jsTruthyStr, hr])]

/-- Closed instance of the C7 theorem: one unresolved issue for a completed
thread without resolution; zero once a non-empty resolution is set. -/
theorem plot_thread_unresolved_check_witness :
    ((checkPlotConsistency [c7Thread] []).filter
      (fun i => i.type == "plot-thread-unresolved" && i.plotThreadId == some c7Thread.id)).length = 1 ∧
    ((checkPlotConsistency [c7ThreadResolved] []).filter
      (fun i => i.type == "plot-thread-unresolved" && i.plotThreadId == some c7ThreadResolved.id)).length = 0 :=
  ⟨(plot_thread_unresolved_check [c7Thread] [] c7Thread (by decide) (by decide) rfl rfl).1,
   (plot_thread_unresolved_check [c7Thread] [] c7Thread (by decide) (by decide) rfl rfl).2.2
     [c7ThreadResolved] c7ThreadResolved "resolved" (by decide) (by decide) rfl (by decide)⟩

/-! ## C6: character-arc-undefined requires an arc object -/

theorem characterIssues_no_arc {chapters : List Chapter} {scenes : List Scene}
    {K : Character} (h : K.arc = none) :
    ∀ i ∈ characterIssues chapters scenes K, i.type ≠ "character-arc-undefined" := by
  intro i hi
  simp only [characterIssues, h, List.append_nil, List.mem_filterMap, List.mem_filter] at hi
  obtain ⟨s, _hs, hg⟩ := hi
  rcases hfind : chapters.find? (fun c => c.id == s.chapterId) with _ | c
  · rw [hfind] at hg
    simp at hg
  · rw [hfind] at hg
    by_cases hinc : jsIncludes c.characters K.id
    · simp [hinc] at hg
    · simp [hinc] at hg
      rw [← hg]
      simp [unlistedIssue]

/-- C6 counterexample: a character with no `arc` object at all (so its arc
summary is absent/empty) listed in two in-scope chapters produces no
`character-arc-undefined` issue — the check requires the `arc` object to be
present, contrary to the claim as stated. -/
theorem arc_undefined_missing_arc_counterexample :
    c1K.arc = none ∧
    1 < ([c6CA, c6CB].filter (fun c => jsIncludes c.characters c1K.id)).length ∧
    checkCharacterConsistency [c1K] [c6CA, c6CB] [] = [] := by decide

/-- C6 (amended): a character that *has an arc object* and appears in more
than one in-scope chapter, with the arc summary missing, empty, or the
literal "To be developed", receives a `character-arc-undefined` issue of
severity `minor` referencing its id; a character lacking the arc object never
receives one. -/
theorem arc_undefined_detection (characters : List Character)
    (chapters : List Chapter) (scenes : List Scene) (K : Character) (a : Arc)
    (hmem : K ∈ characters) (harc : K.arc = some a)
    (hsum : a.summary = none ∨ a.summary = some "" ∨ a.summary = some "To be developed")
    (hmulti : 1 < (chapters.filter (fun c => jsIncludes c.characters K.id)).length) :
    arcUndefinedIssue K ∈ checkCharacterConsistency characters chapters scenes ∧
    (arcUndefinedIssue K).severity = "minor" ∧
    (arcUndefinedIssue K).characterId = some K.id ∧
    ∀ (K' : Character), K'.arc = none →
      ∀ i ∈ characterIssues chapters scenes K', i.type ≠ "character-arc-undefined" := by
  refine ⟨?_, rfl, rfl, fun K' h => characterIssues_no_arc h⟩
  apply List.mem_flatMap.mpr
  refine ⟨K, hmem, ?_⟩
  simp only [characterIssues, harc]
  apply List.mem_append_right
  rw [if_pos hmulti, if_pos ?_]
  · exact List.mem_singleton.mpr rfl
  · rcases hsum with h | h | h <;> simp [h, jsTruthyStr]

/-- Closed instance of the amended C6 theorem: a placeholder arc summary on a
character listed in two chapters produces the minor arc issue. -/
theorem arc_undefined_detection_witness :
    arcUndefinedIssue c6KArc ∈ checkCharacterConsistency [c6KArc] [c6CA, c6CB] [] ∧
    (arcUndefinedIssue c6KArc).severity = "minor" ∧
    (arcUndefinedIssue c6KArc).characterId = some c6KArc.id :=
  ⟨(arc_undefined_detection [c6KArc] [c6CA, c6CB] [] c6KArc
      { summary := some "To be developed" } (by decide) rfl (Or.inr (Or.inr rfl))
      (by decide)).1,
   (arc_undefined_detection [c6KArc] [c6CA, c6CB] [] c6KArc
      { summary := some "To be developed" } (by decide) rfl (Or.inr (Or.inr rfl))
      (by decide)).2.1,
   (arc_undefined_detection [c6KArc] [c6CA, c6CB] [] c6KArc
      { summary := some "To be developed" } (by decide) rfl (Or.inr (Or.inr rfl))
      (by decide)).2.2.1⟩

/-! ## C5: schema validation is not applied at persist time -/

/-- C5 counterexample: `createCharacterDirect` with the out-of-enum
characterType `villain` succeeds and persists the element even though
`CharacterSchema` rejects it — no schema parse happens before the write. -/
theorem schema_not_enforced_counterexample :
    (createCharacterDirect (some c5Bible) "Bob" "villain" none true true true
        "medium" (.response none) "t1") =
      (.succeeded { character := c5BadCharacter, id := 1 },
       some { c5Bible with
              characters := some [c5BadCharacter]
              meta := { c5Bible.meta with updatedAt := "t1" } }) ∧
    validateCharacter c5BadCharacter = false ∧
    c5BadCharacter.characterType = "villain" := by decide

/-- C5 (amended): elements are persisted without any schema parse: whenever
the premise exists and the enrichment call does not throw,
`createCharacterDirect` appends the constructed profile verbatim, so a
caller-supplied characterType outside `CHARACTER_TYPES` yields a persisted
element on which `CharacterSchema` validation fails.  (Only the premise
factory validates an AI payload via a schema parse.) -/
theorem element_persisted_without_schema_check (storyBible : StoryBible) (p : Premise)
    (name characterType : String) (description : Option String)
    (priority now : String) (ai : Option AiCharacterData)
    (hpremise : storyBible.premise = some p)
    (hct : characterType ∉ CHARACTER_TYPES) :
    createCharacterDirect (some storyBible) name characterType description
      true true true priority (.response ai) now =
      (.succeeded
        { character := constructedProfile storyBible name characterType description priority now ai
          id := nextCharacterId (jsArr storyBible.characters) },
       some { storyBible with
              characters := some (jsArr storyBible.characters ++
                [constructedProfile storyBible name characterType description priority now ai])
              meta := { storyBible.meta with updatedAt := now } }) ∧
    (constructedProfile storyBible name characterType description priority now ai).characterType
      = characterType ∧
    validateCharacter
      (constructedProfile storyBible name characterType description priority now ai) = false := by
  refine ⟨?_, ?_, ?_⟩
  · rcases ai with _ | a <;>
      simp [createCharacterDirect, hpremise, constructedProfile]
  · rcases ai with _ | a <;> rfl
  · rcases ai with _ | a <;>
      simp [validateCharacter, constructedProfile, enrichCharacter, baselineCharacter, hct]

/-- Closed instance of the amended C5 theorem. -/
theorem element_persisted_without_schema_check_witness :
    createCharacterDirect (some c5Bible) "Bob" "villain" none
      true true true "medium" (.response none) "t1" =
      (.succeeded
        { character := constructedProfile c5Bible "Bob" "villain" none "medium" "t1" none
          id := nextCharacterId (jsArr c5Bible.characters) },
       some { c5Bible with
              characters := some (jsArr c5Bible.characters ++
                [constructedProfile c5Bible "Bob" "villain" none "medium" "t1" none])
              meta := { c5Bible.meta with updatedAt := "t1" } }) ∧
    (constructedProfile c5Bible "Bob" "villain" none "medium" "t1" none).characterType
      = "villain" ∧
    validateCharacter (constructedProfile c5Bible "Bob" "villain" none "medium" "t1" none) = false :=
  element_persisted_without_schema_check c5Bible premise0 "Bob" "villain" none
    "medium" "t1" none rfl (by decide)

/-! ## C9: enrichment degradation vs service failure -/

/-- C9 counterexample: when the generation service *errors* during character
enrichment, `createCharacterDirect` does not return success with a baseline
profile — the throw reaches the outer catch, the whole operation fails, and
nothing is appended. -/
theorem enrichment_error_is_fatal_counterexample :
    createCharacterDirect (some c5Bible) "Bob" "supporting" none true true true
      "medium" (.failure "service unavailable") "t1" =
      (.failed "Failed to create character: service unavailable" "service unavailable",
       some c5Bible) := by decide

/-- C9 (amended): only *unparseable content* degrades gracefully — the
operation then succeeds with the baseline profile (status `draft`, no
psychology block) appended — while a generation-service *error* fails the
whole operation with nothing persisted. -/
theorem enrichment_degradation (storyBible : StoryBible) (p : Premise)
    (name characterType : String) (description : Option String)
    (priority now e : String) (hpremise : storyBible.premise = some p) :
    createCharacterDirect (some storyBible) name characterType description
      true true true priority (.response none) now =
      (.succeeded
        { character := baselineCharacter (jsArr storyBible.characters) name
            characterType description priority now
          id := nextCharacterId (jsArr storyBible.characters) },
       some { storyBible with
              characters := some (jsArr storyBible.characters ++
                [baselineCharacter (jsArr storyBible.characters) name characterType
                  description priority now])
              meta := { storyBible.meta with updatedAt := now } }) ∧
    (baselineCharacter (jsArr storyBible.characters) name characterType
      description priority now).status = "draft" ∧
    (baselineCharacter (jsArr storyBible.characters) name characterType
      description priority now).psychology = none ∧
    createCharacterDirect (some storyBible) name characterType description
      true true true priority (.failure e) now =
      (.failed ("Failed to create character: " ++ e) e, some storyBible) := by
  refine ⟨?_, rfl, rfl, ?_⟩ <;> simp [createCharacterDirect, hpremise]

/-- Closed instance of the amended C9 theorem. -/
theorem enrichment_degradation_witness :
    createCharacterDirect (some c5Bible) "Ann" "supporting" none
      true true true "medium" (.response none) "t1" =
      (.succeeded
        { character := baselineCharacter (jsArr c5Bible.characters) "Ann"
            "supporting" none "medium" "t1"
          id := nextCharacterId (jsArr c5Bible.characters) },
       some { c5Bible with
              characters := some (jsArr c5Bible.characters ++
                [baselineCharacter (jsArr c5Bible.characters) "Ann" "supporting"
                  none "medium" "t1"])
              meta := { c5Bible.meta with updatedAt := "t1" } }) ∧
    (baselineCharacter (jsArr c5Bible.characters) "Ann" "supporting" none
      "medium" "t1").status = "draft" ∧
    (baselineCharacter (jsArr c5Bible.characters) "Ann" "supporting" none
      "medium" "t1").psychology = none ∧
    createCharacterDirect (some c5Bible) "Ann" "supporting" none
      true true true "medium" (.failure "boom") "t1" =
      (.failed ("Failed to create character: " ++ "boom") "boom", some c5Bible) :=
  enrichment_degradation c5Bible premise0 "Ann" "supporting" none "medium" "t1" "boom" rfl

/-! ## C8: missing story bible fails every operation except parse-premise -/

/-- C8: with no story-bible document in the store, each of create-character,
generate-chapter, check-consistency, get-story-status and next-chapter
returns `success:false` with its fixed advisory message (which directs the
caller to run parse-premise first) and error `Story bible not found`, and
leaves the store untouched (no mutation). -/
theorem no_bible_advisory_failure (name characterType : String)
    (description : Option String) (gp ga gv : Bool) (priority : String)
    (svc : CharSvc) (now : String) (chapterId chapterNumber : Option Nat)
    (title purpose : Option String) (twc : Nat) (gs : Bool) (sc : Nat)
    (chars pts : Option (List Nat)) (conflicts : Option (List String))
    (priority2 : String) (csvc : ChapterSvc) (checkType : String)
    (cid pid : Option Nat) (startChapter : Nat) (endChapter : Option Nat)
    (af : Bool) (fm : String) (sess : Bool) (ai : AiAnalysisOutcome)
    (ic ich ipt : Bool) (st pr : Option String) (is : Bool)
    (cf pt : Option Nat) :
    createCharacterDirect none name characterType description gp ga gv priority svc now
      = (.failed noBibleMessageCreateCharacter noBibleError, none) ∧
    generateChapterDirect none chapterId chapterNumber title purpose twc gs sc
      chars pts conflicts priority2 csvc now
      = (.failed noBibleMessage noBibleError, none) ∧
    checkConsistencyDirect none checkType cid pid startChapter endChapter af fm
      sess ai now = (.failed noBibleMessage noBibleError, none) ∧
    getStoryStatusDirect none ic ich ipt = (.failed noBibleMessage noBibleError, none) ∧
    nextChapterDirect none st pr is cf pt = (.failed noBibleMessage noBibleError, none) ∧
    strIncludes noBibleMessage "Run \"parse-premise\" first" = true ∧
    strIncludes noBibleMessageCreateCharacter "Run \"parse-premise\" first" = true :=
  ⟨rfl, rfl, rfl, rfl, rfl, by decide, by decide⟩

/-! ## C10: chapters without a chapter number fall outside the checked range -/

/-- C10: the range filter substitutes 0 for a missing `chapterNumber`, so
whenever `startChapter ≥ 1` (the default is 1) every in-scope chapter has a
chapter number ≥ 1; every issue that references a chapter references an
in-scope one; and for a scene whose parent chapter (by id) is unnumbered no
`character-unlisted` issue referencing that scene's chapter id is ever
emitted, under any check type or filter. -/
theorem unnumbered_chapters_excluded (storyBible : StoryBible) (checkType : String)
    (cid pid : Option Nat) (startChapter : Nat) (endChapter : Option Nat) (s : Scene)
    (hstart : 1 ≤ startChapter)
    (hparent : ∀ c ∈ jsArr storyBible.chapters, c.id = s.chapterId →
      c.chapterNumber.getD 0 = 0) :
    ((targetChaptersOf (jsArr storyBible.chapters) startChapter endChapter).all
      (fun c => decide (1 ≤ c.chapterNumber.getD 0)) = true) ∧
    (∀ i ∈ consistencyIssues storyBible checkType cid pid startChapter endChapter,
      ∀ cid', i.chapterId = some cid' →
        ∃ c ∈ targetChaptersOf (jsArr storyBible.chapters) startChapter endChapter,
          c.id = cid' ∧ 1 ≤ c.chapterNumber.getD 0) ∧
    ((consistencyIssues storyBible checkType cid pid startChapter endChapter).all
      (fun i => !(i.type == "character-unlisted" && i.chapterId == some s.chapterId))
      = true) := by
  have hrange : ∀ c ∈ targetChaptersOf (jsArr storyBible.chapters) startChapter endChapter,
      1 ≤ c.chapterNumber.getD 0 := by
    intro c hc
    have hf := (List.mem_filter.mp hc).2
    rw [inChapterRange, Bool.and_eq_true] at hf
    exact le_trans hstart (of_decide_eq_true hf.1)
  have href : ∀ i ∈ consistencyIssues storyBible checkType cid pid startChapter endChapter,
      ∀ cid', i.chapterId = some cid' →
        ∃ c ∈ targetChaptersOf (jsArr storyBible.chapters) startChapter endChapter,
          c.id = cid' ∧ 1 ≤ c.chapterNumber.getD 0 := by
    intro i hi cid' hcid
    rcases consistencyIssues_cases hi with ⟨ch, c, hc, rfl⟩ | ⟨ch, rfl⟩ | ⟨t, rfl⟩ |
      ⟨t, rfl⟩ | ⟨a, b, rfl⟩ | ⟨n, rfl⟩ | ⟨n, rfl⟩
    · refine ⟨c, hc, ?_, hrange c hc⟩
      simp only [unlistedIssue, Option.some.injEq] at hcid
      exact hcid
    · simp [arcUndefinedIssue] at hcid
    · simp [unusedThreadIssue] at hcid
    · simp [unresolvedThreadIssue] at hcid
    · simp [gapIssue] at hcid
    · simp [dupIssue] at hcid
    · simp [povIssue] at hcid
  refine ⟨?_, href, ?_⟩
  · rw [List.all_eq_true]
    intro c hc
    exact decide_eq_true (hrange c hc)
  · rw [List.all_eq_true]
    intro i hi
    rw [Bool.not_eq_true']
    by_cases hcid : i.chapterId = some s.chapterId
    · obtain ⟨c, hcmem, hceq, hnum⟩ := href i hi s.chapterId hcid
      have hzero := hparent c (List.mem_of_mem_filter hcmem) hceq
      exact absurd hzero (by omega)
    · simp [hcid]

/-- Closed instance of the C10 theorem: a bible whose only chapter is
unnumbered, with a scene pointing at it. -/
theorem unnumbered_chapters_excluded_witness :
    ((targetChaptersOf (jsArr c10Bible.chapters) 1 none).all
      (fun c => decide (1 ≤ c.chapterNumber.getD 0)) = true) ∧
    ((consistencyIssues c10Bible "all" none none 1 none).all
      (fun i => !(i.type == "character-unlisted" &&
        i.chapterId == some (mkScene 1 1 (some [5])).chapterId)) = true) :=
  ⟨(unnumbered_chapters_excluded c10Bible "all" none none 1 none
      (mkScene 1 1 (some [5])) (by decide) (by decide)).1,
   (unnumbered_chapters_excluded c10Bible "all" none none 1 none
      (mkScene 1 1 (some [5])) (by decide) (by decide)).2.2⟩
